import Mathlib

/-!
Verification development for the Altura booking backend.

The repository contains two alternate implementations of the same
single-endpoint booking service:

* `src/server.js` — the Resend-based variant: open CORS, default JSON body
  limit, a truthiness-based `validateBooking` middleware, a single outbound
  mail-dispatch call (to the admin mailbox), and a fail-fast environment
  check at startup.
* `src/server-secure.js` — the nodemailer-based variant: restricted CORS,
  a 10kb JSON body limit, an express-validator chain (trim / notEmpty /
  isEmail / normalizeEmail / escape), two sequentially awaited outbound
  mail-dispatch calls, and a startup that merely logs transport
  verification failures.

Both variants share an identically configured express-rate-limit guard
(15-minute window, ceiling 5, keyed by client IP).

The definitions below are a shallow embedding of the two request pipelines.
Library functions used by the source (validator.js sanitizers and
validators, express-rate-limit's memory store, express.json's body-size
guard, the cors package's origin policy) are modelled from their documented
behaviour; each such model carries a doc comment saying so.
-/

set_option maxRecDepth 4000

/-- Characters treated as whitespace by the JavaScript / validator.js
`trim` operation (modelled from its documented behaviour, restricted to the
common ASCII whitespace characters). -/
def isWs (c : Char) : Bool :=
  c = ' ' || c = '\t' || c = '\n' || c = '\r' || c = Char.ofNat 11 || c = Char.ofNat 12

/-- Strip leading and trailing whitespace from a character list. -/
def trimList (l : List Char) : List Char :=
  ((l.dropWhile isWs).reverse.dropWhile isWs).reverse

/-- Modelled from the validator.js `trim` sanitizer (JavaScript
`String.prototype.trim`). -/
def trimStr (s : String) : String :=
  ⟨trimList s.data⟩

/-- Modelled from JavaScript `String.prototype.toLowerCase`, restricted to
the ASCII letters (the only characters the embedded inputs use). -/
def lowerChar (c : Char) : Char :=
  if c = 'A' then 'a' else if c = 'B' then 'b' else if c = 'C' then 'c'
  else if c = 'D' then 'd' else if c = 'E' then 'e' else if c = 'F' then 'f'
  else if c = 'G' then 'g' else if c = 'H' then 'h' else if c = 'I' then 'i'
  else if c = 'J' then 'j' else if c = 'K' then 'k' else if c = 'L' then 'l'
  else if c = 'M' then 'm' else if c = 'N' then 'n' else if c = 'O' then 'o'
  else if c = 'P' then 'p' else if c = 'Q' then 'q' else if c = 'R' then 'r'
  else if c = 'S' then 's' else if c = 'T' then 't' else if c = 'U' then 'u'
  else if c = 'V' then 'v' else if c = 'W' then 'w' else if c = 'X' then 'x'
  else if c = 'Y' then 'y' else if c = 'Z' then 'z' else c

/-- Split a character list at every occurrence of the separator. -/
def splitOnChar (sep : Char) : List Char → List (List Char)
  | [] => [[]]
  | c :: cs =>
    if c = sep then [] :: splitOnChar sep cs
    else
      match splitOnChar sep cs with
      | [] => [[c]]
      | g :: gs => (c :: g) :: gs

/-- Whether `p` is a leading segment of `s`. -/
def isLeadingSeg : List Char → List Char → Bool
  | [], _ => true
  | _ :: _, [] => false
  | p :: ps, c :: cs => (p = c) && isLeadingSeg ps cs

/-- Whether the pattern occurs as a contiguous segment of `s` (the semantics
of JavaScript `String.prototype.includes`). -/
def containsSub (pat : List Char) : List Char → Bool
  | [] => isLeadingSeg pat []
  | c :: cs => isLeadingSeg pat (c :: cs) || containsSub pat cs

/-- Substring test on strings. -/
def infixOfStr (p s : String) : Bool :=
  containsSub p.data s.data

/-- Number of occurrences of a character in a string. -/
def countChar (s : String) (c : Char) : Nat :=
  s.data.count c

/-- Modelled from the validator.js `escape` sanitizer: the characters
`&`, `"`, `'`, `<`, `>`, `/`, `\` and backtick are each replaced by their
HTML entity; every other character is kept. -/
def escapeChar (c : Char) : String :=
  if c = '&' then "&amp;"
  else if c = '"' then "&quot;"
  else if c = Char.ofNat 39 then "&#x27;"
  else if c = '<' then "&lt;"
  else if c = '>' then "&gt;"
  else if c = '/' then "&#x2F;"
  else if c = '\\' then "&#x5C;"
  else if c = Char.ofNat 96 then "&#96;"
  else String.singleton c

/-- Character-list version of the `escape` sanitizer. -/
def escapeList : List Char → List Char
  | [] => []
  | c :: cs => (escapeChar c).data ++ escapeList cs

/-- Modelled from the validator.js `escape` sanitizer applied to a string. -/
def escape (s : String) : String :=
  ⟨escapeList s.data⟩

/-- Characters allowed in the (unquoted) local part of a mailbox address,
besides letters and digits. -/
def atomSpecials : List Char :=
  ['!', '#', '$', '%', '&', Char.ofNat 39, '*', '+', '-', '/', '=', '?',
   '^', '_', Char.ofNat 96, Char.ofNat 123, '|', Char.ofNat 125, '~']

/-- Allowed character of an unquoted local-part atom. -/
def atomChar (c : Char) : Bool :=
  c.isAlphanum || atomSpecials.contains c

/-- Allowed character of a domain label. -/
def labelChar (c : Char) : Bool :=
  c.isAlphanum || c = '-'

/-- Check of one dot-separated group of the local part. -/
def localGroupOk (g : List Char) : Bool :=
  !g.isEmpty && g.all atomChar

/-- Check of one dot-separated domain label. -/
def domainLabelOk (g : List Char) : Bool :=
  !g.isEmpty && g.all labelChar

/-- Modelled from the validator.js `isEmail` validator with default options
(unquoted mailbox shape): exactly one `@`, a nonempty dot-atom local part of
allowed characters, and a domain of at least two nonempty labels whose last
label (the TLD) is alphabetic of length at least 2. Quoted local parts,
display names and IP-address domains are not modelled. -/
def isEmail (s : String) : Bool :=
  match splitOnChar '@' s.data with
  | [l, d] =>
    ((splitOnChar '.' l).all localGroupOk && !l.isEmpty) &&
    (match (splitOnChar '.' d).reverse with
     | tld :: rest =>
       !rest.isEmpty && (tld :: rest).all domainLabelOk &&
       tld.all (fun c => c.isAlpha) && 2 ≤ tld.length
     | [] => false)
  | _ => false

/-- Modelled from the validator.js `normalizeEmail` sanitizer with default
options: the local part and the domain are lowercased; for Gmail addresses
the dots of the local part are removed and `googlemail.com` becomes
`gmail.com`. Inputs without exactly one `@` are returned unchanged. -/
def normalizeEmail (s : String) : String :=
  match splitOnChar '@' s.data with
  | [l, d] =>
    let l2 := l.map lowerChar
    let d2 := d.map lowerChar
    if d2 = "gmail.com".data || d2 = "googlemail.com".data then
      ⟨(l2.filter (fun c => c ≠ '.')) ++ '@' :: "gmail.com".data⟩
    else ⟨l2 ++ '@' :: d2⟩
  | _ => s

/-- A JSON value as it appears in a parsed request body (JavaScript value
model; numbers are modelled as integers, which covers every input the
claims need). `vundef` stands for an absent field. -/
inductive JsVal where
  | vstr : String → JsVal
  | vnum : Int → JsVal
  | vbool : Bool → JsVal
  | varr : List JsVal → JsVal
  | vobj : List (String × JsVal) → JsVal
  | vnull : JsVal
  | vundef : JsVal

/-- JavaScript truthiness of a value. -/
def truthy : JsVal → Bool
  | JsVal.vstr s => s ≠ ""
  | JsVal.vnum n => n ≠ 0
  | JsVal.vbool b => b
  | JsVal.varr _ => true
  | JsVal.vobj _ => true
  | JsVal.vnull => false
  | JsVal.vundef => false

mutual

/-- JavaScript string conversion of a value (as performed by template
literal interpolation). -/
def jsToString : JsVal → String
  | JsVal.vstr s => s
  | JsVal.vnum n => toString n
  | JsVal.vbool b => if b then "true" else "false"
  | JsVal.varr xs => String.intercalate "," (jsToStringElems xs)
  | JsVal.vobj _ => "[object Object]"
  | JsVal.vnull => "null"
  | JsVal.vundef => "undefined"

/-- Elementwise string conversion used by JavaScript `Array.prototype.toString`
(null and undefined elements render as the empty string). -/
def jsToStringElems : List JsVal → List String
  | [] => []
  | JsVal.vnull :: vs => "" :: jsToStringElems vs
  | JsVal.vundef :: vs => "" :: jsToStringElems vs
  | v :: vs => jsToString v :: jsToStringElems vs

end

/-- The JavaScript expression `v || d` coerced to a string, as used by the
template fallbacks of both variants. -/
def jsOr (v : JsVal) (d : String) : String :=
  if truthy v then jsToString v else d

/-- Modelled from JavaScript method dispatch for `value.includes(pat)`:
strings search for a substring, arrays search for an equal element
(`Array.prototype.includes`); every other value has no `includes` method,
so the call throws a TypeError. -/
def jsIncludesStr (pat : String) : JsVal → Except String Bool
  | JsVal.vstr s => Except.ok (containsSub pat.data s.data)
  | JsVal.varr xs =>
    Except.ok (xs.any (fun v =>
      match v with
      | JsVal.vstr t => t = pat
      | _ => false))
  | _ => Except.error "TypeError: email.includes is not a function"

/-- An outbound mail message handed to the mail-dispatch collaborator
(`{from, to, subject, html, replyTo?}`; the source's `from` and `to` keys
are reserved words in Lean, hence `fromAddr` and `toAddr`). -/
structure MailMsg where
  fromAddr : String
  toAddr : String
  subject : String
  html : String
  replyTo : Option String
deriving Repr, DecidableEq

/-- An HTTP response: status code and the value of the single
`message` / `error` field of the JSON body. -/
structure Response where
  status : Nat
  body : String
deriving Repr, DecidableEq

/-- The environment-variable configuration surface of both variants. -/
structure Env where
  RESEND_API_KEY : Option String
  FROM_EMAIL : Option String
  ADMIN_EMAIL : Option String
  EMAIL_USER : Option String
  EMAIL_PASS : Option String
  RECEIVER_EMAIL : Option String

/-- JavaScript falsiness of an environment variable (absent or empty). -/
def envFalsy (o : Option String) : Bool :=
  o.getD "" = ""

/-- One client's entry in the express-rate-limit memory store. -/
structure RateEntry where
  totalHits : Nat
  resetTime : Nat
deriving Repr, DecidableEq

/-- The express-rate-limit memory store: one entry per client key. -/
def RateState := List (String × RateEntry)

/-- Modelled from the express-rate-limit memory store `increment`
operation: a missing or expired entry is replaced by a fresh entry with one
hit and a new window; otherwise the hit counter is incremented. Returns the
new store and the total hits of the key. -/
def rlIncrement (windowMs : Nat) (st : RateState) (key : String) (now : Nat) :
    RateState × Nat :=
  match List.lookup key st with
  | none => ((key, ⟨1, now + windowMs⟩) :: st, 1)
  | some e =>
    if e.resetTime ≤ now then
      (st.map (fun p => if p.1 = key then (key, ⟨1, now + windowMs⟩) else p), 1)
    else
      (st.map (fun p => if p.1 = key then (key, ⟨e.totalHits + 1, e.resetTime⟩) else p),
       e.totalHits + 1)

/-- The rate-limit window of both variants: 15 minutes in milliseconds. -/
def rateWindowMs : Nat := 15 * 60 * 1000

/-- The rate-limit ceiling of both variants. -/
def rateMax : Nat := 5

/-- A CORS policy: the allowed origins (`none` means every origin, the
default of the bare `cors()` call) and the allowed methods. -/
structure CorsPolicy where
  allowedOrigins : Option (List String)
  methods : List String

/-- Modelled from the cors package: whether a declared origin is granted
cross-origin access under a policy. -/
def originAllowed (p : CorsPolicy) (origin : String) : Bool :=
  match p.allowedOrigins with
  | none => true
  | some l => l.contains origin

/-- The CORS policy of `server.js`: the bare `cors()` call, which allows
every origin and the cors package's default method list. -/
def serverJsCors : CorsPolicy :=
  { allowedOrigins := none
    methods := ["GET", "HEAD", "PUT", "PATCH", "POST", "DELETE"] }

/-- The CORS policy configured in `server-secure.js`. -/
def serverSecureCors : CorsPolicy :=
  { allowedOrigins := some ["http://localhost:5178", "http://192.168.100.12:5178"]
    methods := ["POST"] }

/-- The JSON body-size ceiling of `server.js`: `express.json()` with no
`limit` option, whose documented default is 100kb. -/
def serverJsBodyLimit : Nat := 100 * 1024

/-- The JSON body-size ceiling configured in `server-secure.js`
(`express.json({ limit: '10kb' })`). -/
def serverSecureBodyLimit : Nat := 10 * 1024

/-- Startup behaviour of `server.js` (lines 14-17): the process exits
before serving when any of RESEND_API_KEY, FROM_EMAIL, ADMIN_EMAIL is
absent or empty; returns whether the process goes on to serve requests. -/
def serverJsStartupServes (env : Env) : Bool :=
  !(envFalsy env.RESEND_API_KEY || envFalsy env.FROM_EMAIL || envFalsy env.ADMIN_EMAIL)

/-- Startup behaviour of `server-secure.js` (lines 46-52): a transport
verification failure is only logged in the `transporter.verify` callback;
the process serves requests in every case, so this is constantly true. -/
def serverSecureStartupServes (_env : Env) : Bool :=
  true

/-- The parsed JSON body as read by the `server.js` handler (raw JSON
values; an absent field is `vundef`). -/
structure JsBody where
  fullName : JsVal
  email : JsVal
  phone : JsVal
  organization : JsVal
  serviceType : JsVal
  preferredDate : JsVal
  preferredTime : JsVal
  notes : JsVal

/-- The `validateBooking` middleware of `server.js` (lines 34-46): a 400
response when any of the five required fields is falsy, a 400 response when
`email.includes('@')` is false, otherwise fall through to the handler
(`Except.ok none`). A thrown TypeError (from calling `includes` on a value
without that method) is `Except.error`. -/
def validateBooking (b : JsBody) : Except String (Option Response) :=
  if !(truthy b.fullName && truthy b.email && truthy b.serviceType &&
       truthy b.preferredDate && truthy b.preferredTime) then
    Except.ok (some ⟨400, "Missing required fields"⟩)
  else
    match jsIncludesStr ("@") b.email with
    | Except.error e => Except.error e
    | Except.ok inc =>
      if inc then Except.ok none
      else Except.ok (some ⟨400, "Invalid email format"⟩)

/-- The admin-notification HTML body rendered by the `server.js` handler
(lines 56-76); the raw fields are interpolated with no escaping. -/
def serverJsAdminHtml (b : JsBody) : String :=
  "
        <div style=\"font-family: Arial, sans-serif; max-width: 600px; margin: 0 auto;\">
          <h2 style=\"color: #0d9488; border-bottom: 2px solid #0d9488; padding-bottom: 10px;\">
            New Consultation Booking
          </h2>
          
          <div style=\"background: #f8fafc; padding: 20px; border-radius: 8px; margin: 20px 0;\">
            <p><strong>Client:</strong> " ++ jsToString b.fullName ++ "</p>
            <p><strong>Email:</strong> " ++ jsToString b.email ++ "</p>
            <p><strong>Phone:</strong> " ++ jsOr b.phone ("Not provided") ++ "</p>
            <p><strong>Organization:</strong> " ++ jsOr b.organization ("Not provided") ++ "</p>
            <p><strong>Service:</strong> " ++ jsToString b.serviceType ++ "</p>
            <p><strong>Schedule:</strong> " ++ jsToString b.preferredDate ++ " at " ++ jsToString b.preferredTime ++ "</p>
            <p><strong>Notes:</strong> " ++ jsOr b.notes ("None") ++ "</p>
          </div>
          
          <p style=\"color: #64748b; font-size: 14px;\">
            This booking was submitted via the Altura Health website contact form.
          </p>
        </div>
      "

/-- The single mail message dispatched by the `server.js` handler
(lines 52-77): addressed to the configured admin mailbox, with no
reply-address. -/
def adminMsgJs (env : Env) (b : JsBody) : MailMsg :=
  { fromAddr := "Altura Health <" ++ env.FROM_EMAIL.getD ("") ++ ">"
    toAddr := env.ADMIN_EMAIL.getD ("")
    subject := "New Booking Request: " ++ jsToString b.fullName
    html := serverJsAdminHtml b
    replyTo := none }

/-- The `server.js` booking route after the rate limiter: run
`validateBooking`, then (on fall-through) attempt the single send and map
the outcome to a response. Returns the response (`Except.error` for an
uncaught middleware throw) and the list of attempted dispatch calls. -/
def serverJsAfterLimiter (mailer : MailMsg → Except String String) (env : Env)
    (b : JsBody) : Except String Response × List MailMsg :=
  match validateBooking b with
  | Except.error e => (Except.error e, [])
  | Except.ok (some r) => (Except.ok r, [])
  | Except.ok none =>
    let m := adminMsgJs env b
    match mailer m with
    | Except.ok _ => (Except.ok ⟨200, "Booking submitted successfully"⟩, [m])
    | Except.error _ =>
      (Except.ok ⟨500, "Failed to send booking. Please try again or contact us directly."⟩, [m])

/-- One request to `POST /api/booking` of `server.js`: the JSON body-size
guard (default 100kb ceiling), then the rate limiter (window 15 min,
ceiling 5), then `validateBooking` and the handler. Returns the new rate
store, the response and the attempted dispatch calls. -/
def serverJsRequest (mailer : MailMsg → Except String String) (env : Env)
    (st : RateState) (ip : String) (now : Nat) (bodyLen : Nat) (b : JsBody) :
    RateState × Except String Response × List MailMsg :=
  if bodyLen ≤ serverJsBodyLimit then
    let p := rlIncrement rateWindowMs st ip now
    if p.2 ≤ rateMax then
      let r := serverJsAfterLimiter mailer env b
      (p.1, r.1, r.2)
    else
      (p.1, Except.ok ⟨429, "Too many booking requests. Please try again later."⟩, [])
  else
    (st, Except.ok ⟨413, "request entity too large"⟩, [])

/-- The JSON body as read by `server-secure.js` (string-typed fields as
submitted by the booking form; `none` is an absent field). -/
structure RawBody where
  fullName : Option String
  email : Option String
  phone : Option String
  organization : Option String
  serviceType : Option String
  preferredDate : Option String
  preferredTime : Option String
  notes : Option String

/-- The request body after the express-validator sanitizers have run
(lines 62-69 of `server-secure.js`): every field except `email` is trimmed
and escaped; `email` is normalized. -/
structure SanitizedBooking where
  fullName : String
  email : String
  phone : String
  organization : String
  serviceType : String
  preferredDate : String
  preferredTime : String
  notes : String
deriving Repr, DecidableEq

/-- The sanitizers of the `server-secure.js` validation chain applied to a
raw body (an absent field sanitizes from the empty string). -/
def sanitizeBooking (b : RawBody) : SanitizedBooking :=
  { fullName := escape (trimStr (b.fullName.getD ("")))
    email := normalizeEmail (b.email.getD (""))
    phone := escape (trimStr (b.phone.getD ("")))
    organization := escape (trimStr (b.organization.getD ("")))
    serviceType := escape (trimStr (b.serviceType.getD ("")))
    preferredDate := escape (trimStr (b.preferredDate.getD ("")))
    preferredTime := escape (trimStr (b.preferredTime.getD ("")))
    notes := escape (trimStr (b.notes.getD (""))) }

/-- The validation errors collected by the `server-secure.js` chain
(lines 62-69): `notEmpty` after trimming for fullName, serviceType,
preferredDate and preferredTime, and `isEmail` for email. The two chains
without `withMessage` produce the express-validator default message. -/
def secureValidationErrors (b : RawBody) : List String :=
  (if trimStr (b.fullName.getD ("")) = "" then ["Name is required"] else []) ++
  (if isEmail (b.email.getD ("")) then [] else ["Valid email is required"]) ++
  (if trimStr (b.serviceType.getD ("")) = "" then ["Service type is required"] else []) ++
  (if trimStr (b.preferredDate.getD ("")) = "" then ["Invalid value"] else []) ++
  (if trimStr (b.preferredTime.getD ("")) = "" then ["Invalid value"] else [])

/-- The JavaScript expression `v || d` on the already-sanitized string
fields (used by the subject lines and the company template fallbacks). -/
def strOr (v d : String) : String :=
  if v = "" then d else v

/-- The visitor-confirmation HTML body of `server-secure.js`
(lines 87-126), rendered from the sanitized fields. -/
def visitorEmailHtml (s : SanitizedBooking) : String :=
  "
      <div style=\"font-family: Arial, sans-serif; max-width: 600px; margin: 0 auto; padding: 20px;\">
        <div style=\"background: linear-gradient(135deg, #0f172a 0%, #1e293b 50%, #0f172a 100%); padding: 30px; border-radius: 10px; text-align: center;\">
          <h1 style=\"color: #fff; margin: 0; font-size: 2rem;\">ALTURA</h1>
          <p style=\"color: #14b8a6; margin: 10px 0 0 0; font-size: 1.2rem;\">Health Strategies</p>
        </div>
        
        <div style=\"background: #f8fafc; padding: 30px; border-radius: 10px; margin: 20px 0;\">
          <h2 style=\"color: #0f766e; margin-bottom: 20px;\">Booking Confirmed! 🎉</h2>
          <p style=\"color: #1e293b; line-height: 1.6;\">
            Dear <strong>" ++ s.fullName ++ "</strong>,
          </p>
          <p style=\"color: #1e293b; line-height: 1.6;\">
            Thank you for choosing Altura Health Strategies! Your consultation booking has been successfully confirmed.
          </p>
          
          <div style=\"background: #e0f2fe; padding: 20px; border-radius: 8px; margin: 20px 0; border-left: 4px solid #0284c7;\">
            <h3 style=\"color: #0284c7; margin: 0 0 10px 0;\">Your Booking Details:</h3>
            <p style=\"margin: 5px 0;\"><strong>Service:</strong> " ++ s.serviceType ++ "</p>
            <p style=\"margin: 5px 0;\"><strong>Date:</strong> " ++ s.preferredDate ++ "</p>
            <p style=\"margin: 5px 0;\"><strong>Time:</strong> " ++ s.preferredTime ++ "</p>
          </div>
          
          <p style=\"color: #1e293b; line-height: 1.6;\">
            Our team will review your booking and contact you shortly to confirm all details and answer any questions you may have.
          </p>
          
          <div style=\"text-align: center; margin: 30px 0;\">
            <p style=\"color: #64748b; font-size: 0.9rem;\">
              For immediate assistance, please contact us at:<br>
              📧 mamlinjohn@gmail.com
            </p>
          </div>
        </div>
        
        <div style=\"text-align: center; color: #64748b; font-size: 0.8rem; margin-top: 20px;\">
          <p>© 2024 Altura Health Strategies. All rights reserved.</p>
        </div>
      </div>
    "

/-- The company-notification HTML body of `server-secure.js`
(lines 129-151): a field-by-field table of the sanitized fields, with
`N/A` fallbacks for the optional ones. -/
def companyEmailHtml (s : SanitizedBooking) : String :=
  "
      <div style=\"font-family: sans-serif; color: #1e293b; max-width: 600px;\">
        <h2 style=\"color: #0f766e;\">📋 New Consultation Booking</h2>
        <table style=\"width: 100%; border-collapse: collapse; text-align: left; margin-top: 20px;\">
          <thead>
            <tr style=\"background-color: #f1f5f9;\">
              <th style=\"border: 1px solid #cbd5e1; padding: 12px; width: 30%;\">Field</th>
              <th style=\"border: 1px solid #cbd5e1; padding: 12px;\">Client Data</th>
            </tr>
          </thead>
          <tbody>
            <tr><td style=\"border: 1px solid #cbd5e1; padding: 10px;\"><strong>Name</strong></td><td style=\"border: 1px solid #cbd5e1; padding: 10px;\">" ++ s.fullName ++ "</td></tr>
            <tr><td style=\"border: 1px solid #cbd5e1; padding: 10px;\"><strong>Email</strong></td><td style=\"border: 1px solid #cbd5e1; padding: 10px;\">" ++ s.email ++ "</td></tr>
            <tr><td style=\"border: 1px solid #cbd5e1; padding: 10px;\"><strong>Phone</strong></td><td style=\"border: 1px solid #cbd5e1; padding: 10px;\">" ++ strOr s.phone ("N/A") ++ "</td></tr>
            <tr><td style=\"border: 1px solid #cbd5e1; padding: 10px;\"><strong>Organization</strong></td><td style=\"border: 1px solid #cbd5e1; padding: 10px;\">" ++ strOr s.organization ("N/A") ++ "</td></tr>
            <tr><td style=\"border: 1px solid #cbd5e1; padding: 10px;\"><strong>Service</strong></td><td style=\"border: 1px solid #cbd5e1; padding: 10px;\">" ++ s.serviceType ++ "</td></tr>
            <tr><td style=\"border: 1px solid #cbd5e1; padding: 10px;\"><strong>Date</strong></td><td style=\"border: 1px solid #cbd5e1; padding: 10px;\">" ++ s.preferredDate ++ "</td></tr>
            <tr><td style=\"border: 1px solid #cbd5e1; padding: 10px;\"><strong>Time</strong></td><td style=\"border: 1px solid #cbd5e1; padding: 10px;\">" ++ s.preferredTime ++ "</td></tr>
            <tr><td style=\"border: 1px solid #cbd5e1; padding: 10px;\"><strong>Notes</strong></td><td style=\"border: 1px solid #cbd5e1; padding: 10px;\">" ++ strOr s.notes ("N/A") ++ "</td></tr>
          </tbody>
        </table>
      </div>
    "

/-- The first dispatch call of the `server-secure.js` handler
(lines 158-163): the friendly confirmation sent to the visitor. -/
def visitorMsg (env : Env) (s : SanitizedBooking) : MailMsg :=
  { fromAddr := "\"Altura Booking System\" <" ++ env.EMAIL_USER.getD ("") ++ ">"
    toAddr := s.email
    subject := "Booking Confirmation: " ++ s.fullName ++ " - " ++ strOr s.organization ("Individual")
    html := visitorEmailHtml s
    replyTo := none }

/-- The second dispatch call of the `server-secure.js` handler
(lines 166-172): the detailed report sent to the configured admin mailbox,
with the reply-address set to the visitor's (normalized) email. -/
def companyMsg (env : Env) (s : SanitizedBooking) : MailMsg :=
  { fromAddr := "\"Altura Booking System\" <" ++ env.EMAIL_USER.getD ("") ++ ">"
    toAddr := env.RECEIVER_EMAIL.getD ("")
    subject := "📋 New Booking: " ++ s.fullName ++ " - " ++ strOr s.organization ("Individual")
    html := companyEmailHtml s
    replyTo := some s.email }

/-- The `server-secure.js` booking route after the rate limiter
(lines 71-181): check the collected validation errors, then attempt the
visitor send and, only if it succeeded, the company send, both inside one
try block; any send error is caught and mapped to a generic 500. Returns
the response and the list of attempted dispatch calls. -/
def secureAfterLimiter (mailer : MailMsg → Except String Unit) (env : Env)
    (b : RawBody) : Response × List MailMsg :=
  if secureValidationErrors b = [] then
    let s := sanitizeBooking b
    let m1 := visitorMsg env s
    match mailer m1 with
    | Except.error _ =>
      (⟨500, "Failed to process booking. Please try again later."⟩, [m1])
    | Except.ok _ =>
      let m2 := companyMsg env s
      match mailer m2 with
      | Except.error _ =>
        (⟨500, "Failed to process booking. Please try again later."⟩, [m1, m2])
      | Except.ok _ =>
        (⟨200, "Booking confirmed! Check your email for confirmation."⟩, [m1, m2])
  else
    (⟨400, "Invalid input data"⟩, [])

/-- One request to `POST /api/booking` of `server-secure.js`: the JSON
body-size guard (10kb ceiling), then the rate limiter (window 15 min,
ceiling 5), then validation and the handler. Returns the new rate store,
the response and the attempted dispatch calls. -/
def serverSecureRequest (mailer : MailMsg → Except String Unit) (env : Env)
    (st : RateState) (ip : String) (now : Nat) (bodyLen : Nat) (b : RawBody) :
    RateState × Response × List MailMsg :=
  if bodyLen ≤ serverSecureBodyLimit then
    let p := rlIncrement rateWindowMs st ip now
    if p.2 ≤ rateMax then
      let r := secureAfterLimiter mailer env b
      (p.1, r.1, r.2)
    else
      (p.1, ⟨429, "Too many booking requests from this IP, please try again after 15 minutes."⟩, [])
  else
    (st, ⟨413, "request entity too large"⟩, [])

/-! Supporting lemmas. -/

theorem data_append (a b : String) : (a ++ b).data = a.data ++ b.data := rfl

theorem countChar_append (a b : String) (c : Char) :
    countChar (a ++ b) c = countChar a c + countChar b c := by
  simp [countChar, data_append, List.count_append]

theorem escapeChar_not_mem (c₀ c : Char)
    (h : c = '<' ∨ c = '>' ∨ c = '"' ∨ c = Char.ofNat 39 ∨ c = Char.ofNat 96) :
    c ∉ (escapeChar c₀).data := by
  unfold escapeChar
  split_ifs with h1 h2 h3 h4 h5 h6 h7 h8
  · rcases h with h|h|h|h|h <;> subst h <;> decide
  · rcases h with h|h|h|h|h <;> subst h <;> decide
  · rcases h with h|h|h|h|h <;> subst h <;> decide
  · rcases h with h|h|h|h|h <;> subst h <;> decide
  · rcases h with h|h|h|h|h <;> subst h <;> decide
  · rcases h with h|h|h|h|h <;> subst h <;> decide
  · rcases h with h|h|h|h|h <;> subst h <;> decide
  · rcases h with h|h|h|h|h <;> subst h <;> decide
  · intro hmem
    simp [String.singleton] at hmem
    subst hmem
    rcases h with h|h|h|h|h
    · exact h4 h
    · exact h5 h
    · exact h2 h
    · exact h3 h
    · exact h8 h

theorem escapeList_count (l : List Char) (c : Char)
    (h : c = '<' ∨ c = '>' ∨ c = '"' ∨ c = Char.ofNat 39 ∨ c = Char.ofNat 96) :
    (escapeList l).count c = 0 := by
  induction l with
  | nil => rfl
  | cons c₀ cs ih =>
    simp [escapeList, List.count_append, ih,
      List.count_eq_zero.mpr (escapeChar_not_mem c₀ c h)]

theorem escape_countChar (s : String) (c : Char)
    (h : c = '<' ∨ c = '>' ∨ c = '"' ∨ c = Char.ofNat 39 ∨ c = Char.ofNat 96) :
    countChar (escape s) c = 0 :=
  escapeList_count s.data c h

theorem strOr_count (v d : String) (c : Char)
    (hv : countChar v c = 0) (hd : countChar d c = 0) :
    countChar (strOr v d) c = 0 := by
  unfold strOr
  split_ifs <;> assumption

theorem dropWhile_nil_all {p : Char → Bool} {l : List Char}
    (h : l.dropWhile p = []) : ∀ c ∈ l, p c := by
  induction l with
  | nil => intro c hc; cases hc
  | cons a as ih =>
    intro c hc
    by_cases hpa : p a
    · rw [List.dropWhile_cons_of_pos hpa] at h
      rcases List.mem_cons.mp hc with rfl | hc
      · exact hpa
      · exact ih h c hc
    · rw [List.dropWhile_cons_of_neg hpa] at h
      cases h

theorem trimList_nil_all {l : List Char} (h : trimList l = []) : ∀ c ∈ l, isWs c := by
  unfold trimList at h
  have h2 : (l.dropWhile isWs).reverse.dropWhile isWs = [] := by
    have := congrArg List.reverse h
    simpa using this
  have h3 : ∀ c ∈ (l.dropWhile isWs).reverse, isWs c := dropWhile_nil_all h2
  have h4 : ∀ c ∈ l.dropWhile isWs, isWs c := by
    intro c hc
    exact h3 c (List.mem_reverse.mpr hc)
  intro c hc
  rw [← List.takeWhile_append_dropWhile (p := isWs) (l := l)] at hc
  rcases List.mem_append.mp hc with hc | hc
  · exact List.mem_takeWhile_imp hc
  · exact h4 c hc

theorem splitOnChar_eq_single (sep : Char) (l : List Char) (h : sep ∉ l) :
    splitOnChar sep l = [l] := by
  induction l with
  | nil => rfl
  | cons c cs ih =>
    have hc : ¬(c = sep) := fun he => h (he ▸ List.mem_cons_self c cs)
    have hcs : sep ∉ cs := fun hm => h (List.mem_cons_of_mem c hm)
    simp [splitOnChar, hc, ih hcs]

theorem isEmail_of_trim_empty (s : String) (h : trimStr s = "") :
    isEmail s = false := by
  have hdata : trimList s.data = [] := congrArg String.data h
  have hws : ∀ c ∈ s.data, isWs c := trimList_nil_all hdata
  have hat : '@' ∉ s.data := by
    intro hm
    have := hws '@' hm
    simp [isWs] at this
  unfold isEmail
  rw [splitOnChar_eq_single '@' s.data hat]

theorem rl_nil (w : Nat) (key : String) (now : Nat) :
    rlIncrement w [] key now = ([(key, ⟨1, now + w⟩)], 1) := rfl

theorem rl_hit (w : Nat) (key : String) (k R now : Nat) (h : now < R) :
    rlIncrement w [(key, ⟨k, R⟩)] key now = ([(key, ⟨k + 1, R⟩)], k + 1) := by
  simp [rlIncrement, List.lookup, Nat.not_le.mpr h]

theorem rl_miss (w : Nat) (key key' : String) (e : RateEntry) (now : Nat)
    (h : key' ≠ key) :
    rlIncrement w [(key, e)] key' now = ((key', ⟨1, now + w⟩) :: [(key, e)], 1) := by
  simp [rlIncrement, List.lookup, beq_eq_false_iff_ne.mpr h]

/-! Claim theorems. -/

/-- Claim C7, counterexample: in the nodemailer variant, with every
required configuration value absent, the process still serves requests —
refuting the claim that missing configuration prevents the process from
starting in this program. -/
theorem c7_counterexample :
    serverSecureStartupServes ⟨none, none, none, none, none, none⟩ = true := rfl

/-- Claim C7, amended: the Resend variant refuses to serve when any of the
mail API key, sender address or admin address is absent or empty; the
nodemailer variant serves requests regardless of configuration (its
transport verification failure is only logged). -/
theorem c7_amended :
    (∀ env : Env,
      (envFalsy env.RESEND_API_KEY || envFalsy env.FROM_EMAIL ||
        envFalsy env.ADMIN_EMAIL) = true →
      serverJsStartupServes env = false) ∧
    (∀ env : Env, serverSecureStartupServes env = true) := by
  constructor
  · intro env h
    simp [serverJsStartupServes, h]
  · intro env
    rfl

/-- Claim C7, witness for the amended theorem at a concrete environment
with a missing API key. -/
theorem c7_witness :
    (envFalsy (Env.mk none (some ("f@x.com")) (some ("a@x.com")) none none none).RESEND_API_KEY ||
      envFalsy (Env.mk none (some ("f@x.com")) (some ("a@x.com")) none none none).FROM_EMAIL ||
      envFalsy (Env.mk none (some ("f@x.com")) (some ("a@x.com")) none none none).ADMIN_EMAIL) = true ∧
    serverJsStartupServes (Env.mk none (some ("f@x.com")) (some ("a@x.com")) none none none) = false :=
  ⟨by decide, c7_amended.1 (Env.mk none (some ("f@x.com")) (some ("a@x.com")) none none none) (by decide)⟩

/-- Claim C8, counterexample: a 20000-byte body exceeds the claimed 10 KB
ceiling, yet the Resend variant (default 100kb ceiling) accepts it, runs the
booking handler and dispatches mail — refuting the claim that such requests
never reach the handler. -/
theorem c8_counterexample :
    serverSecureBodyLimit < 20000 ∧
    (let out := serverJsRequest (fun _ => Except.ok ("id1"))
      (Env.mk (some ("k")) (some ("f@x.com")) (some ("admin@x.com")) none none none)
      [] ("203.0.113.7") 0 20000
      (JsBody.mk (JsVal.vstr ("Jane Doe")) (JsVal.vstr ("jane@x.com")) JsVal.vundef
        JsVal.vundef (JsVal.vstr ("Consult")) (JsVal.vstr ("2025-01-10"))
        (JsVal.vstr ("10:00")) JsVal.vundef)
     out.2.1 = Except.ok ⟨200, "Booking submitted successfully"⟩ ∧ out.2.2.length = 1) :=
  ⟨by decide, rfl, rfl⟩

/-- Claim C8, amended: the body-size guard with the ≈10 KB ceiling exists
only in the nodemailer variant, which rejects any larger body with 413
before the handler; the Resend variant's ceiling is the express default of
100kb, so only bodies above 102400 bytes are rejected there. -/
theorem c8_amended :
    (∀ (mailer : MailMsg → Except String Unit) (env : Env) (st : RateState)
      (ip : String) (now bodyLen : Nat) (b : RawBody),
      serverSecureBodyLimit < bodyLen →
      serverSecureRequest mailer env st ip now bodyLen b =
        (st, ⟨413, "request entity too large"⟩, [])) ∧
    (∀ (mailer : MailMsg → Except String String) (env : Env) (st : RateState)
      (ip : String) (now bodyLen : Nat) (b : JsBody),
      serverJsBodyLimit < bodyLen →
      serverJsRequest mailer env st ip now bodyLen b =
        (st, Except.ok ⟨413, "request entity too large"⟩, [])) := by
  constructor
  · intro mailer env st ip now bodyLen b h
    simp [serverSecureRequest, Nat.not_le.mpr h]
  · intro mailer env st ip now bodyLen b h
    simp [serverJsRequest, Nat.not_le.mpr h]

/-- Claim C8, witness for the amended theorem: an 11000-byte body is
rejected by the nodemailer variant with 413 and no dispatch. -/
theorem c8_witness :
    serverSecureBodyLimit < 11000 ∧
    serverSecureRequest (fun _ => Except.ok ())
      (Env.mk none none none (some ("u@x.com")) (some ("p")) (some ("r@x.com")))
      [] ("203.0.113.7") 0 11000
      (RawBody.mk none none none none none none none none) =
      ([], ⟨413, "request entity too large"⟩, []) :=
  ⟨by decide, c8_amended.1 (fun _ => Except.ok ())
    (Env.mk none none none (some ("u@x.com")) (some ("p")) (some ("r@x.com")))
    [] ("203.0.113.7") 0 11000 (RawBody.mk none none none none none none none none)
    (by decide)⟩

/-- Claim C9, counterexample: the Resend variant's bare `cors()` policy
grants cross-origin access to an origin on no configured allow-list, and
permits methods other than POST — refuting the claim that only allow-listed
origins are accepted and only POST is permitted cross-origin. -/
theorem c9_counterexample :
    originAllowed serverJsCors ("http://evil.example") = true ∧
    serverJsCors.methods ≠ ["POST"] := by
  constructor
  · rfl
  · decide

/-- Claim C9, amended: only the nodemailer variant restricts origins — its
policy grants access to exactly the two configured origins and permits only
POST cross-origin; the Resend variant's policy grants access to every
origin. -/
theorem c9_amended :
    (∀ o : String, originAllowed serverSecureCors o = true ↔
      (o = "http://localhost:5178" ∨ o = "http://192.168.100.12:5178")) ∧
    serverSecureCors.methods = ["POST"] ∧
    (∀ o : String, originAllowed serverJsCors o = true) := by
  refine ⟨?_, rfl, fun o => rfl⟩
  intro o
  simp [originAllowed, serverSecureCors, List.contains]

/-- Claim C10, counterexample: a truthy non-string email value that is an
array does not make `validateBooking` throw — arrays do have an `includes`
method, so the middleware returns the 400 invalid-email response instead —
refuting the claim for arbitrary truthy non-string JSON values. -/
theorem c10_counterexample :
    validateBooking (JsBody.mk (JsVal.vstr ("Jane")) (JsVal.varr [JsVal.vstr ("x")])
      JsVal.vundef JsVal.vundef (JsVal.vstr ("C")) (JsVal.vstr ("D"))
      (JsVal.vstr ("T")) JsVal.vundef) =
      Except.ok (some ⟨400, "Invalid email format"⟩) := rfl

/-- Claim C10, amended: when the five required fields are truthy and the
email value is neither a string nor an array (for example a number), the
`validateBooking` middleware of the Resend variant throws a TypeError from
the unguarded `includes` call instead of returning a 400 response. -/
theorem c10_amended (b : JsBody)
    (h1 : truthy b.fullName = true) (h2 : truthy b.email = true)
    (h3 : truthy b.serviceType = true) (h4 : truthy b.preferredDate = true)
    (h5 : truthy b.preferredTime = true)
    (hstr : ∀ s, b.email ≠ JsVal.vstr s)
    (harr : ∀ xs, b.email ≠ JsVal.varr xs) :
    validateBooking b = Except.error ("TypeError: email.includes is not a function") := by
  cases hb : b.email with
  | vstr s => exact absurd hb (hstr s)
  | varr xs => exact absurd hb (harr xs)
  | vnum n =>
    rw [hb] at h2
    simp [validateBooking, h1, h2, h3, h4, h5, hb, jsIncludesStr]
  | vbool bb =>
    rw [hb] at h2
    simp [validateBooking, h1, h2, h3, h4, h5, hb, jsIncludesStr]
  | vobj o =>
    rw [hb] at h2
    simp [validateBooking, h1, h2, h3, h4, h5, hb, jsIncludesStr]
  | vnull =>
    rw [hb] at h2
    simp [truthy] at h2
  | vundef =>
    rw [hb] at h2
    simp [truthy] at h2

/-- Claim C10, witness for the amended theorem: a numeric email value makes
the middleware throw. -/
theorem c10_witness :
    truthy (JsBody.mk (JsVal.vstr ("Jane")) (JsVal.vnum 5) JsVal.vundef JsVal.vundef
      (JsVal.vstr ("C")) (JsVal.vstr ("D")) (JsVal.vstr ("T")) JsVal.vundef).email = true ∧
    validateBooking (JsBody.mk (JsVal.vstr ("Jane")) (JsVal.vnum 5) JsVal.vundef JsVal.vundef
      (JsVal.vstr ("C")) (JsVal.vstr ("D")) (JsVal.vstr ("T")) JsVal.vundef) =
      Except.error ("TypeError: email.includes is not a function") :=
  ⟨rfl, c10_amended (JsBody.mk (JsVal.vstr ("Jane")) (JsVal.vnum 5) JsVal.vundef JsVal.vundef
      (JsVal.vstr ("C")) (JsVal.vstr ("D")) (JsVal.vstr ("T")) JsVal.vundef)
    rfl rfl rfl rfl rfl (fun _ h => JsVal.noConfusion h) (fun _ h => JsVal.noConfusion h)⟩

/-- Claim C5: in either variant, when the mail-dispatch collaborator
returns an error for any attempted send of a valid booking, the response is
a 500 with the variant's fixed generic message, and any error text that is
not already part of that fixed message is absent from the response body. -/
theorem c5_dispatch_error_is_generic_500 :
    (∀ (mailer : MailMsg → Except String Unit) (env : Env) (st : RateState)
      (ip : String) (now bodyLen : Nat) (b : RawBody) (e : String),
      bodyLen ≤ serverSecureBodyLimit →
      (rlIncrement rateWindowMs st ip now).2 ≤ rateMax →
      secureValidationErrors b = [] →
      (mailer (visitorMsg env (sanitizeBooking b)) = Except.error e ∨
        (mailer (visitorMsg env (sanitizeBooking b)) = Except.ok () ∧
         mailer (companyMsg env (sanitizeBooking b)) = Except.error e)) →
      infixOfStr e ("Failed to process booking. Please try again later.") = false →
      (serverSecureRequest mailer env st ip now bodyLen b).2.1 =
        ⟨500, "Failed to process booking. Please try again later."⟩ ∧
      infixOfStr e ((serverSecureRequest mailer env st ip now bodyLen b).2.1).body = false) ∧
    (∀ (mailer : MailMsg → Except String String) (env : Env) (st : RateState)
      (ip : String) (now bodyLen : Nat) (b : JsBody) (e : String),
      bodyLen ≤ serverJsBodyLimit →
      (rlIncrement rateWindowMs st ip now).2 ≤ rateMax →
      validateBooking b = Except.ok none →
      mailer (adminMsgJs env b) = Except.error e →
      infixOfStr e ("Failed to send booking. Please try again or contact us directly.") = false →
      (serverJsRequest mailer env st ip now bodyLen b).2.1 =
        Except.ok ⟨500, "Failed to send booking. Please try again or contact us directly."⟩ ∧
      infixOfStr e ("Failed to send booking. Please try again or contact us directly.") = false) := by
  constructor
  · intro mailer env st ip now bodyLen b e hl hr hv hm hne
    have hresp : (serverSecureRequest mailer env st ip now bodyLen b).2.1 =
        ⟨500, "Failed to process booking. Please try again later."⟩ := by
      rcases hm with hm | ⟨hm1, hm2⟩
      · simp [serverSecureRequest, hl, hr, secureAfterLimiter, hv, hm]
      · simp [serverSecureRequest, hl, hr, secureAfterLimiter, hv, hm1, hm2]
    refine ⟨hresp, ?_⟩
    rw [hresp]
    exact hne
  · intro mailer env st ip now bodyLen b e hl hr hv hm hne
    refine ⟨?_, hne⟩
    simp [serverJsRequest, hl, hr, serverJsAfterLimiter, hv, hm]

/-- Claim C5, witness: a concrete valid booking whose collaborator fails
both variants' sends with a raw SMTP error produces the generic 500s, and
the raw error text is absent from the bodies. -/
theorem c5_witness :
    ((0 : Nat) ≤ serverSecureBodyLimit ∧
     (rlIncrement rateWindowMs [] ("203.0.113.7") 0).2 ≤ rateMax ∧
     secureValidationErrors (RawBody.mk (some ("Jane Doe")) (some ("jane@x.com")) none none
       (some ("Consult")) (some ("2025-01-10")) (some ("10:00")) none) = [] ∧
     infixOfStr ("SMTP 550 relay denied")
       ("Failed to process booking. Please try again later.") = false ∧
     (serverSecureRequest (fun _ => Except.error ("SMTP 550 relay denied"))
       (Env.mk none none none (some ("u@x.com")) (some ("p")) (some ("r@x.com")))
       [] ("203.0.113.7") 0 0
       (RawBody.mk (some ("Jane Doe")) (some ("jane@x.com")) none none
         (some ("Consult")) (some ("2025-01-10")) (some ("10:00")) none)).2.1 =
       ⟨500, "Failed to process booking. Please try again later."⟩) :=
  ⟨by decide, by decide, by decide, by decide,
    (c5_dispatch_error_is_generic_500.1 (fun _ => Except.error ("SMTP 550 relay denied"))
      (Env.mk none none none (some ("u@x.com")) (some ("p")) (some ("r@x.com")))
      [] ("203.0.113.7") 0 0
      (RawBody.mk (some ("Jane Doe")) (some ("jane@x.com")) none none
        (some ("Consult")) (some ("2025-01-10")) (some ("10:00")) none)
      ("SMTP 550 relay denied") (by decide) (by decide) (by decide)
      (Or.inl rfl) (by decide)).1⟩

/-- The sanitized booking with every field empty: rendering the templates
from it yields exactly the constant template markup. -/
def blankSanitized : SanitizedBooking :=
  ⟨"", "", "", "", "", "", "", ""⟩

theorem countChar_empty (c : Char) : countChar ("") c = 0 := rfl

theorem strOr_empty (d : String) : strOr ("") d = d := rfl

/-- Claim C2, amended: in the nodemailer variant every interpolated field
except `email` passes through the `escape` sanitizer, whose output contains
no `<`, `>`, double quote, apostrophe or backtick; consequently the two
rendered bodies contain exactly the markup characters of the constant
templates, except that the company body additionally contains whatever `<`
and `>` the normalized (but unescaped) email value carries. In the Resend
variant no field is escaped at all. -/
theorem c2_amended :
    (∀ s : String,
      countChar (escape s) '<' = 0 ∧ countChar (escape s) '>' = 0 ∧
      countChar (escape s) '"' = 0 ∧ countChar (escape s) (Char.ofNat 39) = 0 ∧
      countChar (escape s) (Char.ofNat 96) = 0) ∧
    (∀ b : RawBody,
      countChar (visitorEmailHtml (sanitizeBooking b)) '<' =
        countChar (visitorEmailHtml blankSanitized) '<' ∧
      countChar (visitorEmailHtml (sanitizeBooking b)) '>' =
        countChar (visitorEmailHtml blankSanitized) '>') ∧
    (∀ b : RawBody,
      countChar (companyEmailHtml (sanitizeBooking b)) '<' =
        countChar (companyEmailHtml blankSanitized) '<' +
        countChar (normalizeEmail (b.email.getD (""))) '<' ∧
      countChar (companyEmailHtml (sanitizeBooking b)) '>' =
        countChar (companyEmailHtml blankSanitized) '>' +
        countChar (normalizeEmail (b.email.getD (""))) '>') := by
  have hlt : ∀ s, countChar (escape s) '<' = 0 :=
    fun s => escape_countChar s _ (Or.inl rfl)
  have hgt : ∀ s, countChar (escape s) '>' = 0 :=
    fun s => escape_countChar s _ (Or.inr (Or.inl rfl))
  have hNAlt : ∀ x, countChar (strOr (escape x) ("N/A")) '<' = 0 :=
    fun x => strOr_count _ _ _ (hlt x) (by decide)
  have hNAgt : ∀ x, countChar (strOr (escape x) ("N/A")) '>' = 0 :=
    fun x => strOr_count _ _ _ (hgt x) (by decide)
  have hNAe_lt : countChar (strOr ("") ("N/A")) '<' = 0 := by decide
  have hNAe_gt : countChar (strOr ("") ("N/A")) '>' = 0 := by decide
  refine ⟨?_, ?_, ?_⟩
  · intro s
    exact ⟨hlt s, hgt s,
      escape_countChar s _ (Or.inr (Or.inr (Or.inl rfl))),
      escape_countChar s _ (Or.inr (Or.inr (Or.inr (Or.inl rfl)))),
      escape_countChar s _ (Or.inr (Or.inr (Or.inr (Or.inr rfl))))⟩
  · intro b
    constructor
    · simp only [visitorEmailHtml, sanitizeBooking, blankSanitized, countChar_append,
        hlt, countChar_empty, Nat.add_zero, Nat.zero_add]
    · simp only [visitorEmailHtml, sanitizeBooking, blankSanitized, countChar_append,
        hgt, countChar_empty, Nat.add_zero, Nat.zero_add]
  · intro b
    constructor
    · simp only [companyEmailHtml, sanitizeBooking, blankSanitized, countChar_append,
        hlt, hNAlt, hNAe_lt, countChar_empty, Nat.add_zero, Nat.zero_add]
      omega
    · simp only [companyEmailHtml, sanitizeBooking, blankSanitized, countChar_append,
        hgt, hNAgt, hNAe_gt, countChar_empty, Nat.add_zero, Nat.zero_add]
      omega

/-- Claim C2, counterexample: in the Resend variant, a fullName containing
a script tag appears verbatim (unescaped) in the rendered admin message
body — refuting the claim that text fields are escaped before
interpolation in this program. -/
theorem c2_counterexample :
    infixOfStr ("<script>alert(1)</script>")
      (serverJsAdminHtml (JsBody.mk (JsVal.vstr ("<script>alert(1)</script>"))
        (JsVal.vstr ("jane@x.com")) JsVal.vundef JsVal.vundef
        (JsVal.vstr ("Consult")) (JsVal.vstr ("2025-01-10"))
        (JsVal.vstr ("10:00")) JsVal.vundef)) = true := by
  rfl

/-- Claim C1, counterexample: a valid payload submitted to the Resend
variant produces a 200 response but exactly one mail-dispatch call, and its
recipient is the configured admin mailbox, not the submitted email —
refuting the claim that every valid payload produces two dispatch calls
with the first addressed to the submitted email. -/
theorem c1_counterexample :
    (serverJsRequest (fun _ => Except.ok ("id1"))
      (Env.mk (some ("k")) (some ("noreply@x.com")) (some ("admin@x.com")) none none none)
      [] ("203.0.113.7") 0 0
      (JsBody.mk (JsVal.vstr ("Jane Doe")) (JsVal.vstr ("jane@x.com")) JsVal.vundef
        JsVal.vundef (JsVal.vstr ("Consult")) (JsVal.vstr ("2025-01-10"))
        (JsVal.vstr ("10:00")) JsVal.vundef)).2.1 =
      Except.ok ⟨200, "Booking submitted successfully"⟩ ∧
    (serverJsRequest (fun _ => Except.ok ("id1"))
      (Env.mk (some ("k")) (some ("noreply@x.com")) (some ("admin@x.com")) none none none)
      [] ("203.0.113.7") 0 0
      (JsBody.mk (JsVal.vstr ("Jane Doe")) (JsVal.vstr ("jane@x.com")) JsVal.vundef
        JsVal.vundef (JsVal.vstr ("Consult")) (JsVal.vstr ("2025-01-10"))
        (JsVal.vstr ("10:00")) JsVal.vundef)).2.2.map MailMsg.toAddr = [("admin@x.com")] :=
  ⟨rfl, rfl⟩

/-- Claim C1, amended: in the nodemailer variant, a validated payload whose
sends succeed produces exactly two dispatch calls — the first addressed to
the normalized form of the submitted email, the second to the configured
admin mailbox with its reply-address set to that normalized email; in the
Resend variant, a validated payload produces exactly one dispatch call,
addressed to the admin mailbox, with no reply-address. -/
theorem c1_amended :
    (∀ (mailer : MailMsg → Except String Unit) (env : Env) (st : RateState)
      (ip : String) (now bodyLen : Nat) (b : RawBody),
      bodyLen ≤ serverSecureBodyLimit →
      (rlIncrement rateWindowMs st ip now).2 ≤ rateMax →
      secureValidationErrors b = [] →
      mailer (visitorMsg env (sanitizeBooking b)) = Except.ok () →
      mailer (companyMsg env (sanitizeBooking b)) = Except.ok () →
      (serverSecureRequest mailer env st ip now bodyLen b).2.2 =
        [visitorMsg env (sanitizeBooking b), companyMsg env (sanitizeBooking b)] ∧
      (visitorMsg env (sanitizeBooking b)).toAddr = normalizeEmail (b.email.getD ("")) ∧
      (companyMsg env (sanitizeBooking b)).toAddr = env.RECEIVER_EMAIL.getD ("") ∧
      (companyMsg env (sanitizeBooking b)).replyTo = some (normalizeEmail (b.email.getD ("")))) ∧
    (∀ (mailer : MailMsg → Except String String) (env : Env) (st : RateState)
      (ip : String) (now bodyLen : Nat) (b : JsBody) (i : String),
      bodyLen ≤ serverJsBodyLimit →
      (rlIncrement rateWindowMs st ip now).2 ≤ rateMax →
      validateBooking b = Except.ok none →
      mailer (adminMsgJs env b) = Except.ok i →
      (serverJsRequest mailer env st ip now bodyLen b).2.2 = [adminMsgJs env b] ∧
      (adminMsgJs env b).toAddr = env.ADMIN_EMAIL.getD ("") ∧
      (adminMsgJs env b).replyTo = none) := by
  constructor
  · intro mailer env st ip now bodyLen b hl hr hv hm1 hm2
    refine ⟨?_, rfl, rfl, rfl⟩
    simp [serverSecureRequest, hl, hr, secureAfterLimiter, hv, hm1, hm2]
  · intro mailer env st ip now bodyLen b i hl hr hv hm
    refine ⟨?_, rfl, rfl⟩
    simp [serverJsRequest, hl, hr, serverJsAfterLimiter, hv, hm]

/-- Claim C1, witness for the amended theorem at a concrete valid payload
for each variant. -/
theorem c1_witness :
    (secureValidationErrors (RawBody.mk (some ("Jane Doe")) (some ("jane@x.com")) none none
        (some ("Consult")) (some ("2025-01-10")) (some ("10:00")) none) = [] ∧
     (serverSecureRequest (fun _ => Except.ok ())
        (Env.mk none none none (some ("u@x.com")) (some ("p")) (some ("recv@x.com")))
        [] ("203.0.113.7") 0 0
        (RawBody.mk (some ("Jane Doe")) (some ("jane@x.com")) none none
          (some ("Consult")) (some ("2025-01-10")) (some ("10:00")) none)).2.2 =
       [visitorMsg (Env.mk none none none (some ("u@x.com")) (some ("p")) (some ("recv@x.com")))
          (sanitizeBooking (RawBody.mk (some ("Jane Doe")) (some ("jane@x.com")) none none
            (some ("Consult")) (some ("2025-01-10")) (some ("10:00")) none)),
        companyMsg (Env.mk none none none (some ("u@x.com")) (some ("p")) (some ("recv@x.com")))
          (sanitizeBooking (RawBody.mk (some ("Jane Doe")) (some ("jane@x.com")) none none
            (some ("Consult")) (some ("2025-01-10")) (some ("10:00")) none))]) ∧
    (validateBooking (JsBody.mk (JsVal.vstr ("Jane Doe")) (JsVal.vstr ("jane@x.com"))
        JsVal.vundef JsVal.vundef (JsVal.vstr ("Consult")) (JsVal.vstr ("2025-01-10"))
        (JsVal.vstr ("10:00")) JsVal.vundef) = Except.ok none ∧
     (serverJsRequest (fun _ => Except.ok ("id1"))
        (Env.mk (some ("k")) (some ("noreply@x.com")) (some ("admin@x.com")) none none none)
        [] ("203.0.113.7") 0 0
        (JsBody.mk (JsVal.vstr ("Jane Doe")) (JsVal.vstr ("jane@x.com")) JsVal.vundef
          JsVal.vundef (JsVal.vstr ("Consult")) (JsVal.vstr ("2025-01-10"))
          (JsVal.vstr ("10:00")) JsVal.vundef)).2.2 =
       [adminMsgJs (Env.mk (some ("k")) (some ("noreply@x.com")) (some ("admin@x.com")) none none none)
          (JsBody.mk (JsVal.vstr ("Jane Doe")) (JsVal.vstr ("jane@x.com")) JsVal.vundef
            JsVal.vundef (JsVal.vstr ("Consult")) (JsVal.vstr ("2025-01-10"))
            (JsVal.vstr ("10:00")) JsVal.vundef)]) :=
  ⟨⟨by decide,
    (c1_amended.1 (fun _ => Except.ok ())
      (Env.mk none none none (some ("u@x.com")) (some ("p")) (some ("recv@x.com")))
      [] ("203.0.113.7") 0 0
      (RawBody.mk (some ("Jane Doe")) (some ("jane@x.com")) none none
        (some ("Consult")) (some ("2025-01-10")) (some ("10:00")) none)
      (by decide) (by decide) (by decide) rfl rfl).1⟩,
   ⟨rfl,
    (c1_amended.2 (fun _ => Except.ok ("id1"))
      (Env.mk (some ("k")) (some ("noreply@x.com")) (some ("admin@x.com")) none none none)
      [] ("203.0.113.7") 0 0
      (JsBody.mk (JsVal.vstr ("Jane Doe")) (JsVal.vstr ("jane@x.com")) JsVal.vundef
        JsVal.vundef (JsVal.vstr ("Consult")) (JsVal.vstr ("2025-01-10"))
        (JsVal.vstr ("10:00")) JsVal.vundef) ("id1")
      (by decide) (by decide) rfl rfl).1⟩⟩

/-- Claim C3, counterexample: a payload whose fullName is a single space is
empty after trimming, yet the Resend variant accepts it — the response is
200 and one dispatch call occurs — refuting the claim that such payloads
always get 400 with no dispatch. -/
theorem c3_counterexample :
    trimStr (" ") = "" ∧
    (serverJsRequest (fun _ => Except.ok ("id1"))
      (Env.mk (some ("k")) (some ("noreply@x.com")) (some ("admin@x.com")) none none none)
      [] ("203.0.113.7") 0 0
      (JsBody.mk (JsVal.vstr (" ")) (JsVal.vstr ("jane@x.com")) JsVal.vundef
        JsVal.vundef (JsVal.vstr ("Consult")) (JsVal.vstr ("2025-01-10"))
        (JsVal.vstr ("10:00")) JsVal.vundef)).2.1 =
      Except.ok ⟨200, "Booking submitted successfully"⟩ ∧
    (serverJsRequest (fun _ => Except.ok ("id1"))
      (Env.mk (some ("k")) (some ("noreply@x.com")) (some ("admin@x.com")) none none none)
      [] ("203.0.113.7") 0 0
      (JsBody.mk (JsVal.vstr (" ")) (JsVal.vstr ("jane@x.com")) JsVal.vundef
        JsVal.vundef (JsVal.vstr ("Consult")) (JsVal.vstr ("2025-01-10"))
        (JsVal.vstr ("10:00")) JsVal.vundef)).2.2.length = 1 :=
  ⟨by decide, rfl, rfl⟩

/-- Claim C3, amended: in the nodemailer variant, a required field that is
absent or empty after trimming yields a 400 response and no dispatch call;
in the Resend variant the check is only JavaScript truthiness, so a
required field that is absent or the empty string yields 400 with no
dispatch, but whitespace-only values pass validation. -/
theorem c3_amended :
    (∀ (mailer : MailMsg → Except String Unit) (env : Env) (st : RateState)
      (ip : String) (now bodyLen : Nat) (b : RawBody),
      bodyLen ≤ serverSecureBodyLimit →
      (rlIncrement rateWindowMs st ip now).2 ≤ rateMax →
      (trimStr (b.fullName.getD ("")) = "" ∨ trimStr (b.email.getD ("")) = "" ∨
       trimStr (b.serviceType.getD ("")) = "" ∨ trimStr (b.preferredDate.getD ("")) = "" ∨
       trimStr (b.preferredTime.getD ("")) = "") →
      (serverSecureRequest mailer env st ip now bodyLen b).2.1 = ⟨400, "Invalid input data"⟩ ∧
      (serverSecureRequest mailer env st ip now bodyLen b).2.2 = []) ∧
    (∀ (mailer : MailMsg → Except String String) (env : Env) (st : RateState)
      (ip : String) (now bodyLen : Nat) (b : JsBody),
      bodyLen ≤ serverJsBodyLimit →
      (rlIncrement rateWindowMs st ip now).2 ≤ rateMax →
      (truthy b.fullName = false ∨ truthy b.email = false ∨ truthy b.serviceType = false ∨
       truthy b.preferredDate = false ∨ truthy b.preferredTime = false) →
      (serverJsRequest mailer env st ip now bodyLen b).2.1 =
        Except.ok ⟨400, "Missing required fields"⟩ ∧
      (serverJsRequest mailer env st ip now bodyLen b).2.2 = []) := by
  constructor
  · intro mailer env st ip now bodyLen b hl hr hdis
    have hne : ¬(secureValidationErrors b = []) := by
      intro hv
      rcases hdis with h|h|h|h|h
      · simp [secureValidationErrors, h] at hv
      · simp [secureValidationErrors, isEmail_of_trim_empty _ h] at hv
      · simp [secureValidationErrors, h] at hv
      · simp [secureValidationErrors, h] at hv
      · simp [secureValidationErrors, h] at hv
    refine ⟨?_, ?_⟩ <;> simp [serverSecureRequest, hl, hr, secureAfterLimiter, hne]
  · intro mailer env st ip now bodyLen b hl hr hdis
    have hv : validateBooking b = Except.ok (some ⟨400, "Missing required fields"⟩) := by
      unfold validateBooking
      rcases hdis with h|h|h|h|h <;> simp [h]
    refine ⟨?_, ?_⟩ <;> simp [serverJsRequest, hl, hr, serverJsAfterLimiter, hv]

/-- Claim C3, witness for the amended theorem: a whitespace-only fullName
yields 400 and no dispatch in the nodemailer variant, and an absent
fullName yields 400 and no dispatch in the Resend variant. -/
theorem c3_witness :
    (trimStr ((RawBody.mk (some (" ")) (some ("jane@x.com")) none none (some ("Consult"))
        (some ("2025-01-10")) (some ("10:00")) none).fullName.getD ("")) = "" ∧
     (serverSecureRequest (fun _ => Except.ok ())
        (Env.mk none none none (some ("u@x.com")) (some ("p")) (some ("recv@x.com")))
        [] ("203.0.113.7") 0 0
        (RawBody.mk (some (" ")) (some ("jane@x.com")) none none (some ("Consult"))
          (some ("2025-01-10")) (some ("10:00")) none)).2.1 = ⟨400, "Invalid input data"⟩) ∧
    (truthy (JsBody.mk JsVal.vundef (JsVal.vstr ("jane@x.com")) JsVal.vundef JsVal.vundef
        (JsVal.vstr ("Consult")) (JsVal.vstr ("2025-01-10")) (JsVal.vstr ("10:00"))
        JsVal.vundef).fullName = false ∧
     (serverJsRequest (fun _ => Except.ok ("id1"))
        (Env.mk (some ("k")) (some ("noreply@x.com")) (some ("admin@x.com")) none none none)
        [] ("203.0.113.7") 0 0
        (JsBody.mk JsVal.vundef (JsVal.vstr ("jane@x.com")) JsVal.vundef JsVal.vundef
          (JsVal.vstr ("Consult")) (JsVal.vstr ("2025-01-10")) (JsVal.vstr ("10:00"))
          JsVal.vundef)).2.1 = Except.ok ⟨400, "Missing required fields"⟩) :=
  ⟨⟨by decide,
    (c3_amended.1 (fun _ => Except.ok ())
      (Env.mk none none none (some ("u@x.com")) (some ("p")) (some ("recv@x.com")))
      [] ("203.0.113.7") 0 0
      (RawBody.mk (some (" ")) (some ("jane@x.com")) none none (some ("Consult"))
        (some ("2025-01-10")) (some ("10:00")) none)
      (by decide) (by decide) (Or.inl (by decide))).1⟩,
   ⟨rfl,
    (c3_amended.2 (fun _ => Except.ok ("id1"))
      (Env.mk (some ("k")) (some ("noreply@x.com")) (some ("admin@x.com")) none none none)
      [] ("203.0.113.7") 0 0
      (JsBody.mk JsVal.vundef (JsVal.vstr ("jane@x.com")) JsVal.vundef JsVal.vundef
        (JsVal.vstr ("Consult")) (JsVal.vstr ("2025-01-10")) (JsVal.vstr ("10:00"))
        JsVal.vundef)
      (by decide) (by decide) (Or.inl rfl)).1⟩⟩

/-- Claim C6, counterexample: a valid booking whose visitor send fails
attempts only one dispatch call in the nodemailer variant — the failure of
the first send prevents the admin send from being attempted, because the
two awaits are sequential inside one try block — refuting the claim that a
failure of one send does not prevent the other from being attempted. -/
theorem c6_counterexample :
    secureValidationErrors (RawBody.mk (some ("Jane Doe")) (some ("jane@x.com")) none none
      (some ("Consult")) (some ("2025-01-10")) (some ("10:00")) none) = [] ∧
    (serverSecureRequest
      (fun m => if m.toAddr = ("jane@x.com") then Except.error ("boom") else Except.ok ())
      (Env.mk none none none (some ("u@x.com")) (some ("p")) (some ("recv@x.com")))
      [] ("203.0.113.7") 0 0
      (RawBody.mk (some ("Jane Doe")) (some ("jane@x.com")) none none
        (some ("Consult")) (some ("2025-01-10")) (some ("10:00")) none)).2.2.length = 1 ∧
    (serverSecureRequest
      (fun m => if m.toAddr = ("jane@x.com") then Except.error ("boom") else Except.ok ())
      (Env.mk none none none (some ("u@x.com")) (some ("p")) (some ("recv@x.com")))
      [] ("203.0.113.7") 0 0
      (RawBody.mk (some ("Jane Doe")) (some ("jane@x.com")) none none
        (some ("Consult")) (some ("2025-01-10")) (some ("10:00")) none)).2.1.status = 500 :=
  ⟨by decide, rfl, rfl⟩

/-- Claim C6, amended: for every valid booking in the nodemailer variant,
the client-facing send is always attempted; the admin-facing send is
attempted exactly when the client-facing send succeeds, because the two
sends are awaited sequentially inside a single try block. -/
theorem c6_amended :
    ∀ (mailer : MailMsg → Except String Unit) (env : Env) (st : RateState)
      (ip : String) (now bodyLen : Nat) (b : RawBody),
      bodyLen ≤ serverSecureBodyLimit →
      (rlIncrement rateWindowMs st ip now).2 ≤ rateMax →
      secureValidationErrors b = [] →
      ((∀ e, mailer (visitorMsg env (sanitizeBooking b)) = Except.error e →
        (serverSecureRequest mailer env st ip now bodyLen b).2.2 =
          [visitorMsg env (sanitizeBooking b)]) ∧
       (mailer (visitorMsg env (sanitizeBooking b)) = Except.ok () →
        (serverSecureRequest mailer env st ip now bodyLen b).2.2 =
          [visitorMsg env (sanitizeBooking b), companyMsg env (sanitizeBooking b)])) := by
  intro mailer env st ip now bodyLen b hl hr hv
  constructor
  · intro e hm
    simp [serverSecureRequest, hl, hr, secureAfterLimiter, hv, hm]
  · intro hm
    cases h2 : mailer (companyMsg env (sanitizeBooking b)) with
    | ok u =>
      cases u
      simp [serverSecureRequest, hl, hr, secureAfterLimiter, hv, hm, h2]
    | error e =>
      simp [serverSecureRequest, hl, hr, secureAfterLimiter, hv, hm, h2]

/-- Claim C6, witness for the amended theorem: with an always-succeeding
collaborator both sends of a concrete valid booking are attempted. -/
theorem c6_witness :
    secureValidationErrors (RawBody.mk (some ("Jane Doe")) (some ("jane@x.com")) none none
      (some ("Consult")) (some ("2025-01-10")) (some ("10:00")) none) = [] ∧
    (serverSecureRequest (fun _ => Except.ok ())
      (Env.mk none none none (some ("u@x.com")) (some ("p")) (some ("recv@x.com")))
      [] ("203.0.113.7") 0 0
      (RawBody.mk (some ("Jane Doe")) (some ("jane@x.com")) none none
        (some ("Consult")) (some ("2025-01-10")) (some ("10:00")) none)).2.2 =
      [visitorMsg (Env.mk none none none (some ("u@x.com")) (some ("p")) (some ("recv@x.com")))
        (sanitizeBooking (RawBody.mk (some ("Jane Doe")) (some ("jane@x.com")) none none
          (some ("Consult")) (some ("2025-01-10")) (some ("10:00")) none)),
       companyMsg (Env.mk none none none (some ("u@x.com")) (some ("p")) (some ("recv@x.com")))
        (sanitizeBooking (RawBody.mk (some ("Jane Doe")) (some ("jane@x.com")) none none
          (some ("Consult")) (some ("2025-01-10")) (some ("10:00")) none))] :=
  ⟨by decide,
   (c6_amended (fun _ => Except.ok ())
     (Env.mk none none none (some ("u@x.com")) (some ("p")) (some ("recv@x.com")))
     [] ("203.0.113.7") 0 0
     (RawBody.mk (some ("Jane Doe")) (some ("jane@x.com")) none none
       (some ("Consult")) (some ("2025-01-10")) (some ("10:00")) none)
     (by decide) (by decide) (by decide)).2 rfl⟩

/-! Pipeline-shape lemmas used for the rate-limit claim. -/

theorem secure_state_eq (mailer : MailMsg → Except String Unit) (env : Env)
    (st : RateState) (ip : String) (now l : Nat) (b : RawBody)
    (hl : l ≤ serverSecureBodyLimit) :
    (serverSecureRequest mailer env st ip now l b).1 =
      (rlIncrement rateWindowMs st ip now).1 := by
  by_cases hc : (rlIncrement rateWindowMs st ip now).2 ≤ rateMax
  · simp [serverSecureRequest, hl, hc]
  · simp [serverSecureRequest, hl, hc]

theorem secure_resp_429 (mailer : MailMsg → Except String Unit) (env : Env)
    (st : RateState) (ip : String) (now l : Nat) (b : RawBody)
    (hl : l ≤ serverSecureBodyLimit)
    (hc : ¬((rlIncrement rateWindowMs st ip now).2 ≤ rateMax)) :
    (serverSecureRequest mailer env st ip now l b).2 =
      (⟨429, "Too many booking requests from this IP, please try again after 15 minutes."⟩, []) := by
  simp [serverSecureRequest, hl, hc]

theorem secure_resp_pass (mailer : MailMsg → Except String Unit) (env : Env)
    (st : RateState) (ip : String) (now l : Nat) (b : RawBody)
    (hl : l ≤ serverSecureBodyLimit)
    (hc : (rlIncrement rateWindowMs st ip now).2 ≤ rateMax) :
    (serverSecureRequest mailer env st ip now l b).2 =
      secureAfterLimiter mailer env b := by
  simp [serverSecureRequest, hl, hc]

theorem secure_fresh_key (mailer : MailMsg → Except String Unit) (env : Env)
    (key : String) (e : RateEntry) (ip' : String) (t' l' : Nat) (b' : RawBody)
    (h : ip' ≠ key) :
    (serverSecureRequest mailer env [(key, e)] ip' t' l' b').2 =
    (serverSecureRequest mailer env [] ip' t' l' b').2 := by
  by_cases hl : l' ≤ serverSecureBodyLimit
  · rw [secure_resp_pass mailer env [(key, e)] ip' t' l' b' hl
      (by rw [rl_miss rateWindowMs key ip' e t' h]; simp [rateMax])]
    rw [secure_resp_pass mailer env [] ip' t' l' b' hl
      (by rw [rl_nil rateWindowMs ip' t']; simp [rateMax])]
  · simp [serverSecureRequest, hl]

theorem js_state_eq (mailer : MailMsg → Except String String) (env : Env)
    (st : RateState) (ip : String) (now l : Nat) (b : JsBody)
    (hl : l ≤ serverJsBodyLimit) :
    (serverJsRequest mailer env st ip now l b).1 =
      (rlIncrement rateWindowMs st ip now).1 := by
  by_cases hc : (rlIncrement rateWindowMs st ip now).2 ≤ rateMax
  · simp [serverJsRequest, hl, hc]
  · simp [serverJsRequest, hl, hc]

theorem js_resp_429 (mailer : MailMsg → Except String String) (env : Env)
    (st : RateState) (ip : String) (now l : Nat) (b : JsBody)
    (hl : l ≤ serverJsBodyLimit)
    (hc : ¬((rlIncrement rateWindowMs st ip now).2 ≤ rateMax)) :
    (serverJsRequest mailer env st ip now l b).2 =
      (Except.ok ⟨429, "Too many booking requests. Please try again later."⟩, []) := by
  simp [serverJsRequest, hl, hc]

theorem js_resp_pass (mailer : MailMsg → Except String String) (env : Env)
    (st : RateState) (ip : String) (now l : Nat) (b : JsBody)
    (hl : l ≤ serverJsBodyLimit)
    (hc : (rlIncrement rateWindowMs st ip now).2 ≤ rateMax) :
    (serverJsRequest mailer env st ip now l b).2 =
      serverJsAfterLimiter mailer env b := by
  simp [serverJsRequest, hl, hc]

theorem js_fresh_key (mailer : MailMsg → Except String String) (env : Env)
    (key : String) (e : RateEntry) (ip' : String) (t' l' : Nat) (b' : JsBody)
    (h : ip' ≠ key) :
    (serverJsRequest mailer env [(key, e)] ip' t' l' b').2 =
    (serverJsRequest mailer env [] ip' t' l' b').2 := by
  by_cases hl : l' ≤ serverJsBodyLimit
  · rw [js_resp_pass mailer env [(key, e)] ip' t' l' b' hl
      (by rw [rl_miss rateWindowMs key ip' e t' h]; simp [rateMax])]
    rw [js_resp_pass mailer env [] ip' t' l' b' hl
      (by rw [rl_nil rateWindowMs ip' t']; simp [rateMax])]
  · simp [serverJsRequest, hl]

/-- Claim C4: in both variants, starting from an empty rate store, six
sequential booking requests from one client identity within one 15-minute
window drive that identity's hit counter to 6, the sixth request receives a
429 response with no dispatch call, and a subsequent request from a
different client identity behaves exactly as it would against an empty
store. -/
theorem c4_rate_limit :
    (∀ (mailer : MailMsg → Except String Unit) (env : Env) (ip : String)
      (t1 t2 t3 t4 t5 t6 l1 l2 l3 l4 l5 l6 : Nat)
      (b1 b2 b3 b4 b5 b6 : RawBody) (ip' : String) (t' l' : Nat) (b' : RawBody),
      l1 ≤ serverSecureBodyLimit → l2 ≤ serverSecureBodyLimit → l3 ≤ serverSecureBodyLimit →
      l4 ≤ serverSecureBodyLimit → l5 ≤ serverSecureBodyLimit → l6 ≤ serverSecureBodyLimit →
      t2 < t1 + rateWindowMs → t3 < t1 + rateWindowMs → t4 < t1 + rateWindowMs →
      t5 < t1 + rateWindowMs → t6 < t1 + rateWindowMs →
      ip' ≠ ip →
      ((serverSecureRequest mailer env [] ip t1 l1 b1).1 = [(ip, ⟨1, t1 + rateWindowMs⟩)] ∧
       (serverSecureRequest mailer env [(ip, ⟨1, t1 + rateWindowMs⟩)] ip t2 l2 b2).1 =
         [(ip, ⟨2, t1 + rateWindowMs⟩)] ∧
       (serverSecureRequest mailer env [(ip, ⟨2, t1 + rateWindowMs⟩)] ip t3 l3 b3).1 =
         [(ip, ⟨3, t1 + rateWindowMs⟩)] ∧
       (serverSecureRequest mailer env [(ip, ⟨3, t1 + rateWindowMs⟩)] ip t4 l4 b4).1 =
         [(ip, ⟨4, t1 + rateWindowMs⟩)] ∧
       (serverSecureRequest mailer env [(ip, ⟨4, t1 + rateWindowMs⟩)] ip t5 l5 b5).1 =
         [(ip, ⟨5, t1 + rateWindowMs⟩)] ∧
       (serverSecureRequest mailer env [(ip, ⟨5, t1 + rateWindowMs⟩)] ip t6 l6 b6).2 =
         (⟨429, "Too many booking requests from this IP, please try again after 15 minutes."⟩, []) ∧
       (serverSecureRequest mailer env [(ip, ⟨5, t1 + rateWindowMs⟩)] ip t6 l6 b6).1 =
         [(ip, ⟨6, t1 + rateWindowMs⟩)] ∧
       (serverSecureRequest mailer env [(ip, ⟨6, t1 + rateWindowMs⟩)] ip' t' l' b').2 =
         (serverSecureRequest mailer env [] ip' t' l' b').2)) ∧
    (∀ (mailer : MailMsg → Except String String) (env : Env) (ip : String)
      (t1 t2 t3 t4 t5 t6 l1 l2 l3 l4 l5 l6 : Nat)
      (b1 b2 b3 b4 b5 b6 : JsBody) (ip' : String) (t' l' : Nat) (b' : JsBody),
      l1 ≤ serverJsBodyLimit → l2 ≤ serverJsBodyLimit → l3 ≤ serverJsBodyLimit →
      l4 ≤ serverJsBodyLimit → l5 ≤ serverJsBodyLimit → l6 ≤ serverJsBodyLimit →
      t2 < t1 + rateWindowMs → t3 < t1 + rateWindowMs → t4 < t1 + rateWindowMs →
      t5 < t1 + rateWindowMs → t6 < t1 + rateWindowMs →
      ip' ≠ ip →
      ((serverJsRequest mailer env [] ip t1 l1 b1).1 = [(ip, ⟨1, t1 + rateWindowMs⟩)] ∧
       (serverJsRequest mailer env [(ip, ⟨1, t1 + rateWindowMs⟩)] ip t2 l2 b2).1 =
         [(ip, ⟨2, t1 + rateWindowMs⟩)] ∧
       (serverJsRequest mailer env [(ip, ⟨2, t1 + rateWindowMs⟩)] ip t3 l3 b3).1 =
         [(ip, ⟨3, t1 + rateWindowMs⟩)] ∧
       (serverJsRequest mailer env [(ip, ⟨3, t1 + rateWindowMs⟩)] ip t4 l4 b4).1 =
         [(ip, ⟨4, t1 + rateWindowMs⟩)] ∧
       (serverJsRequest mailer env [(ip, ⟨4, t1 + rateWindowMs⟩)] ip t5 l5 b5).1 =
         [(ip, ⟨5, t1 + rateWindowMs⟩)] ∧
       (serverJsRequest mailer env [(ip, ⟨5, t1 + rateWindowMs⟩)] ip t6 l6 b6).2 =
         (Except.ok ⟨429, "Too many booking requests. Please try again later."⟩, []) ∧
       (serverJsRequest mailer env [(ip, ⟨5, t1 + rateWindowMs⟩)] ip t6 l6 b6).1 =
         [(ip, ⟨6, t1 + rateWindowMs⟩)] ∧
       (serverJsRequest mailer env [(ip, ⟨6, t1 + rateWindowMs⟩)] ip' t' l' b').2 =
         (serverJsRequest mailer env [] ip' t' l' b').2)) := by
  constructor
  · intro mailer env ip t1 t2 t3 t4 t5 t6 l1 l2 l3 l4 l5 l6 b1 b2 b3 b4 b5 b6 ip' t' l' b'
    intro hl1 hl2 hl3 hl4 hl5 hl6 ht2 ht3 ht4 ht5 ht6 hip
    refine ⟨?_, ?_, ?_, ?_, ?_, ?_, ?_, ?_⟩
    · rw [secure_state_eq mailer env [] ip t1 l1 b1 hl1, rl_nil]
    · rw [secure_state_eq mailer env _ ip t2 l2 b2 hl2,
        rl_hit rateWindowMs ip 1 (t1 + rateWindowMs) t2 ht2]
    · rw [secure_state_eq mailer env _ ip t3 l3 b3 hl3,
        rl_hit rateWindowMs ip 2 (t1 + rateWindowMs) t3 ht3]
    · rw [secure_state_eq mailer env _ ip t4 l4 b4 hl4,
        rl_hit rateWindowMs ip 3 (t1 + rateWindowMs) t4 ht4]
    · rw [secure_state_eq mailer env _ ip t5 l5 b5 hl5,
        rl_hit rateWindowMs ip 4 (t1 + rateWindowMs) t5 ht5]
    · exact secure_resp_429 mailer env [(ip, ⟨5, t1 + rateWindowMs⟩)] ip t6 l6 b6 hl6
        (by rw [rl_hit rateWindowMs ip 5 (t1 + rateWindowMs) t6 ht6]; simp [rateMax])
    · rw [secure_state_eq mailer env _ ip t6 l6 b6 hl6,
        rl_hit rateWindowMs ip 5 (t1 + rateWindowMs) t6 ht6]
    · exact secure_fresh_key mailer env ip ⟨6, t1 + rateWindowMs⟩ ip' t' l' b' hip
  · intro mailer env ip t1 t2 t3 t4 t5 t6 l1 l2 l3 l4 l5 l6 b1 b2 b3 b4 b5 b6 ip' t' l' b'
    intro hl1 hl2 hl3 hl4 hl5 hl6 ht2 ht3 ht4 ht5 ht6 hip
    refine ⟨?_, ?_, ?_, ?_, ?_, ?_, ?_, ?_⟩
    · rw [js_state_eq mailer env [] ip t1 l1 b1 hl1, rl_nil]
    · rw [js_state_eq mailer env _ ip t2 l2 b2 hl2,
        rl_hit rateWindowMs ip 1 (t1 + rateWindowMs) t2 ht2]
    · rw [js_state_eq mailer env _ ip t3 l3 b3 hl3,
        rl_hit rateWindowMs ip 2 (t1 + rateWindowMs) t3 ht3]
    · rw [js_state_eq mailer env _ ip t4 l4 b4 hl4,
        rl_hit rateWindowMs ip 3 (t1 + rateWindowMs) t4 ht4]
    · rw [js_state_eq mailer env _ ip t5 l5 b5 hl5,
        rl_hit rateWindowMs ip 4 (t1 + rateWindowMs) t5 ht5]
    · exact js_resp_429 mailer env [(ip, ⟨5, t1 + rateWindowMs⟩)] ip t6 l6 b6 hl6
        (by rw [rl_hit rateWindowMs ip 5 (t1 + rateWindowMs) t6 ht6]; simp [rateMax])
    · rw [js_state_eq mailer env _ ip t6 l6 b6 hl6,
        rl_hit rateWindowMs ip 5 (t1 + rateWindowMs) t6 ht6]
    · exact js_fresh_key mailer env ip ⟨6, t1 + rateWindowMs⟩ ip' t' l' b' hip

/-- Claim C4, witness: six concrete same-identity requests at time 0 drive
the counter to 6 and the sixth gets the 429 with no dispatch. -/
theorem c4_witness :
    ((0 : Nat) ≤ serverSecureBodyLimit ∧ (0 : Nat) < 0 + rateWindowMs ∧
     ("198.51.100.9" : String) ≠ ("203.0.113.7") ∧
     (serverSecureRequest (fun _ => Except.ok ())
       (Env.mk none none none (some ("u@x.com")) (some ("p")) (some ("recv@x.com")))
       [(("203.0.113.7"), ⟨5, 0 + rateWindowMs⟩)] ("203.0.113.7") 0 0
       (RawBody.mk none none none none none none none none)).2 =
       (⟨429, "Too many booking requests from this IP, please try again after 15 minutes."⟩, [])) :=
  ⟨by decide, by decide, by decide,
   (c4_rate_limit.1 (fun _ => Except.ok ())
     (Env.mk none none none (some ("u@x.com")) (some ("p")) (some ("recv@x.com")))
     ("203.0.113.7") 0 0 0 0 0 0 0 0 0 0 0 0
     (RawBody.mk none none none none none none none none)
     (RawBody.mk none none none none none none none none)
     (RawBody.mk none none none none none none none none)
     (RawBody.mk none none none none none none none none)
     (RawBody.mk none none none none none none none none)
     (RawBody.mk none none none none none none none none)
     ("198.51.100.9") 0 0
     (RawBody.mk none none none none none none none none)
     (by decide) (by decide) (by decide) (by decide) (by decide) (by decide)
     (by decide) (by decide) (by decide) (by decide) (by decide)
     (by decide)).2.2.2.2.2.1⟩
